import Mathlib

/-!
Shallow embedding of the JSON-RPC 2.0 processor (`src/core/jsonrpc.py`),
the Kafka transport adapter (`src/streaming/kafka_client.py`) and the
three-stage flow orchestrator (`src/streaming/data_flow_manager.py`).

Python JSON values are modelled by the inductive type `Json`; the result
of `json.loads` on a wire string is modelled as `Option Json` (`none`
when the text is not syntactically valid JSON).  Python `dict`s appear
as association lists with string keys; `dict.get` is `pyGet` (which,
like Python, returns `None` both for a missing key and for a stored JSON
`null`).  Handlers and middleware are modelled as functions returning an
explicit outcome (`CallOutcome`, `Except`), so a raised Python exception
is an explicit value rather than control flow.
-/

/-- A JSON value, as produced by Python `json.loads`.  Numbers are
modelled as rationals. -/
inductive Json where
  | null : Json
  | boolean : Bool → Json
  | num : Rat → Json
  | str : String → Json
  | arr : List Json → Json
  | obj : List (String × Json) → Json
deriving Repr

/-- Python truthiness of a JSON value (`None`, `False`, `0`, `""`, `[]`,
`{}` are falsy). -/
def Json.truthy : Json → Bool
  | .null => false
  | .boolean b => b
  | .num q => q != 0
  | .str s => s ≠ ""
  | .arr xs => !xs.isEmpty
  | .obj kvs => !kvs.isEmpty

/-- Whether an association list (Python dict) has the given key:
models `key in data`. -/
def hasKey (kvs : List (String × Json)) (k : String) : Bool :=
  kvs.any (fun p => p.1 == k)

/-- Python `data.get(key)`: `None` both when the key is absent and when
the stored value is JSON `null` (Python `None`). -/
def pyGet (kvs : List (String × Json)) (k : String) : Option Json :=
  match List.lookup k kvs with
  | some .null => none
  | some v => some v
  | none => none

/-- Python `data.get(key, default)` where the default is a JSON value:
returns the stored value (Python `None`, i.e. `Json.null`, stays `null`)
or the default when the key is absent. -/
def pyGetD (kvs : List (String × Json)) (k : String) (d : Json) : Json :=
  match List.lookup k kvs with
  | some v => v
  | none => d

/-- Python `data[key]` for a key known to be present (used for
`data["method"]` after the `"method" in data` check). -/
def dictIndex (kvs : List (String × Json)) (k : String) : Json :=
  (List.lookup k kvs).getD .null

/-- Python `base[k] = v` on a dict: overwrite in place when the key
exists, else append. -/
def dictSet (kvs : List (String × Json)) (k : String) (v : Json) :
    List (String × Json) :=
  if hasKey kvs k then kvs.map (fun p => if p.1 == k then (k, v) else p)
  else kvs ++ [(k, v)]

/-- Python `{**base, **extra}`: keys of `base` in order (values
overridden by `extra` where present), then the new keys of `extra`. -/
def pyUpdate (base extra : List (String × Json)) : List (String × Json) :=
  base.map (fun p =>
    match List.lookup p.1 extra with
    | some v => (p.1, v)
    | none => p)
  ++ extra.filter (fun q => !(hasKey base q.1))

/-- Python `x == "s"` where `x` is an optional JSON value (non-strings
compare unequal to a string). -/
def isJsonStrEq (j : Option Json) (s : String) : Bool :=
  match j with
  | some (.str t) => t == s
  | _ => false

/-! ## RPC envelope model (`src/core/jsonrpc.py`, dataclasses) -/

/-- `JsonRpcRequest` dataclass.  The `method`, `params` and `id` fields
hold whatever JSON values `json.loads` produced (the Python type
annotations are not enforced at runtime); `none` models Python `None`. -/
structure JsonRpcRequest where
  jsonrpc : String := "2.0"
  method : Json := .str ""
  params : Option Json := none
  id : Option Json := none

/-- Constructing a `JsonRpcRequest`: `__post_init__` replaces an absent
`id` by a freshly generated `str(uuid.uuid4())`.  The generator is made
explicit as the `fresh` argument. -/
def mkJsonRpcRequest (fresh : String) (method : Json) (params : Option Json)
    (id : Option Json) : JsonRpcRequest :=
  { method := method, params := params, id := some (id.getD (.str fresh)) }

/-- `JsonRpcRequest.to_dict`: `jsonrpc` and `method` always present;
`params` and `id` only when not `None`. -/
def JsonRpcRequest.to_dict (r : JsonRpcRequest) : Json :=
  .obj ([("jsonrpc", .str r.jsonrpc), ("method", r.method)]
    ++ (match r.params with | some p => [("params", p)] | none => [])
    ++ (match r.id with | some i => [("id", i)] | none => []))

/-- `JsonRpcResponse` dataclass; `none` models Python `None`. -/
structure JsonRpcResponse where
  jsonrpc : String := "2.0"
  id : Option Json := none
  result : Option Json := none
  error : Option Json := none

/-- `JsonRpcResponse.to_dict`: `jsonrpc` always present, `id` when not
`None`; then the `error` key when `error` is set, otherwise the `result`
key (whose value is JSON `null` when `result` is Python `None`). -/
def JsonRpcResponse.to_dict (r : JsonRpcResponse) : Json :=
  .obj ([("jsonrpc", .str r.jsonrpc)]
    ++ (match r.id with | some i => [("id", i)] | none => [])
    ++ (match r.error with
        | some e => [("error", e)]
        | none => [("result", r.result.getD .null)]))

/-- `JsonRpcError` dataclass. -/
structure JsonRpcError where
  code : Int
  message : String
  data : Option Json := none

/-- `JsonRpcError.to_dict`: `code` and `message` always present, `data`
only when not `None`. -/
def JsonRpcError.to_dict (e : JsonRpcError) : Json :=
  .obj ([("code", .num (e.code : Rat)), ("message", .str e.message)]
    ++ (match e.data with | some d => [("data", d)] | none => []))

/-! The `JsonRpcErrorCodes` constants. -/

namespace JsonRpcErrorCodes

def PARSE_ERROR : Int := -32700

def INVALID_REQUEST : Int := -32600

def METHOD_NOT_FOUND : Int := -32601

def INVALID_PARAMS : Int := -32602

def INTERNAL_ERROR : Int := -32603

end JsonRpcErrorCodes

/-! ## RPC processor (`JsonRpcProcessor`) -/

/-- The calling convention `process_request` chooses from the runtime
shape of `params`: no arguments, positional spread, or keyword spread. -/
inductive CallShape where
  | noArgs : CallShape
  | positional : List Json → CallShape
  | named : List (String × Json) → CallShape

/-- Outcome of invoking a registered handler: a returned JSON value, a
raised `TypeError` (wrong/missing arguments), or any other raised
exception, with its message. -/
inductive CallOutcome where
  | ok : Json → CallOutcome
  | typeError : String → CallOutcome
  | raised : String → CallOutcome

/-- A registered method: a callable taking the chosen argument shape. -/
def Handler := CallShape → CallOutcome

/-- A middleware function: transforms (or replaces) the request, or
raises (`.error msg`). -/
def Middleware := JsonRpcRequest → Except String JsonRpcRequest

/-- `JsonRpcProcessor` state: the method registry and the middleware
chain, in insertion order. -/
structure JsonRpcProcessor where
  methods : List (String × Handler) := []
  middleware : List Middleware := []

namespace JsonRpcProcessor

/-- `register_method`: stores the handler under the name; re-registering
overwrites silently (Python dict assignment). -/
def register_method (p : JsonRpcProcessor) (name : String) (h : Handler) :
    JsonRpcProcessor :=
  { p with methods :=
      if p.methods.any (fun q => q.1 == name) then
        p.methods.map (fun q => if q.1 == name then (name, h) else q)
      else p.methods ++ [(name, h)] }

/-- `add_middleware`: appends to the chain. -/
def add_middleware (p : JsonRpcProcessor) (m : Middleware) : JsonRpcProcessor :=
  { p with middleware := p.middleware ++ [m] }

/-- `create_request`: the creator path; `method` is a string here (the
Python signature), and an omitted `request_id` is replaced by a fresh
identifier in `__post_init__`. -/
def create_request (fresh : String) (method : String) (params : Option Json)
    (request_id : Option Json) : JsonRpcRequest :=
  mkJsonRpcRequest fresh (.str method) params request_id

/-- `create_success_response`.  A handler's returned Python value is
modelled as a `Json` value (`Json.null` for `None`); the wire form
`to_dict` emits `result: null` in either representation. -/
def create_success_response (result : Json) (request_id : Option Json) :
    JsonRpcResponse :=
  { result := some result, id := request_id }

/-- `create_error_response`. -/
def create_error_response (error_code : Int) (error_message : String)
    (error_data : Option Json) (request_id : Option Json) : JsonRpcResponse :=
  { error := some (JsonRpcError.to_dict
      { code := error_code, message := error_message, data := error_data }),
    id := request_id }

end JsonRpcProcessor

/-- Result of `parse_request`: the dual-return contract (a `Request`, or
a pre-built error `Response`). -/
inductive ParseResult where
  | request : JsonRpcRequest → ParseResult
  | response : JsonRpcResponse → ParseResult

namespace JsonRpcProcessor

/-- `parse_request`: `loaded` is the result of `json.loads` on the wire
text (`none` when the text is not valid JSON); `fresh` is the identifier
`__post_init__` would generate. -/
def parse_request (fresh : String) (loaded : Option Json) : ParseResult :=
  match loaded with
  | none =>
      .response (create_error_response JsonRpcErrorCodes.PARSE_ERROR
        "Parse error" (some (.str "JSONDecodeError")) none)
  | some data =>
      match data with
      | .obj kvs =>
          if !(isJsonStrEq (pyGet kvs "jsonrpc") "2.0") then
            .response (create_error_response JsonRpcErrorCodes.INVALID_REQUEST
              "Invalid Request - missing or invalid jsonrpc version" none none)
          else if !(hasKey kvs "method") then
            .response (create_error_response JsonRpcErrorCodes.INVALID_REQUEST
              "Invalid Request - missing method" none none)
          else
            .request (mkJsonRpcRequest fresh (dictIndex kvs "method")
              (pyGet kvs "params") (pyGet kvs "id"))
      | _ =>
          .response (create_error_response JsonRpcErrorCodes.INVALID_REQUEST
            "Invalid Request - must be JSON object" none none)

end JsonRpcProcessor

/-- The middleware loop of `process_request`: apply each middleware in
order to the (possibly replaced) request; on a raised exception, return
the Internal Error response built from the current request's `id`. -/
def runMiddleware : List Middleware → JsonRpcRequest →
    JsonRpcResponse ⊕ JsonRpcRequest
  | [], r => .inr r
  | m :: ms, r =>
      match m r with
      | .ok r2 => runMiddleware ms r2
      | .error e =>
          .inl (JsonRpcProcessor.create_error_response
            JsonRpcErrorCodes.INTERNAL_ERROR ("Middleware error: " ++ e)
            none r.id)

/-- Python `str()` of a method value, as interpolated into the
"Method not found" message (only the string case is exercised by the
claims; container methods are trapped as unhashable before this point). -/
def methodStr : Json → String
  | .str s => s
  | .num q => toString q
  | .boolean b => if b then "True" else "False"
  | .null => "None"
  | .arr _ => "<list>"
  | .obj _ => "<dict>"

/-- `request.method not in self.methods` raises `TypeError` for
unhashable method values (lists/dicts); that exception reaches the outer
`except` of `process_request`. -/
def methodUnhashable : Json → Option String
  | .arr _ => some "unhashable type: 'list'"
  | .obj _ => some "unhashable type: 'dict'"
  | _ => none

/-- Registry lookup: only a string method can match a registered name. -/
def findMethod (methods : List (String × Handler)) : Json → Option Handler
  | .str s => List.lookup s methods
  | _ => none

/-- Wrap a handler invocation's outcome as the source does: success
response, Invalid Params on `TypeError`, Internal Error otherwise. -/
def finishCall (o : CallOutcome) (id : Option Json) : JsonRpcResponse :=
  match o with
  | .ok v => JsonRpcProcessor.create_success_response v id
  | .typeError m =>
      JsonRpcProcessor.create_error_response JsonRpcErrorCodes.INVALID_PARAMS
        ("Invalid params: " ++ m) none id
  | .raised m =>
      JsonRpcProcessor.create_error_response JsonRpcErrorCodes.INTERNAL_ERROR
        ("Method execution error: " ++ m) none id

/-- `process_request`: middleware chain, method lookup, then invocation
with the calling convention chosen from the shape of `params`.  A
non-array, non-object `params` raises `ValueError`, which the
`except TypeError` clause does not catch, so it lands in the generic
`except Exception` clause as a Method execution error. -/
def JsonRpcProcessor.process_request (p : JsonRpcProcessor)
    (req0 : JsonRpcRequest) : JsonRpcResponse :=
  match runMiddleware p.middleware req0 with
  | .inl resp => resp
  | .inr req =>
      match methodUnhashable req.method with
      | some msg =>
          JsonRpcProcessor.create_error_response
            JsonRpcErrorCodes.INTERNAL_ERROR ("Internal error: " ++ msg)
            none req.id
      | none =>
          match findMethod p.methods req.method with
          | none =>
              JsonRpcProcessor.create_error_response
                JsonRpcErrorCodes.METHOD_NOT_FOUND
                ("Method not found: " ++ methodStr req.method) none req.id
          | some h =>
              match req.params with
              | none => finishCall (h .noArgs) req.id
              | some (.arr xs) => finishCall (h (.positional xs)) req.id
              | some (.obj kvs) => finishCall (h (.named kvs)) req.id
              | some _ =>
                  JsonRpcProcessor.create_error_response
                    JsonRpcErrorCodes.INTERNAL_ERROR
                    "Method execution error: Params must be array or object"
                    none req.id

/-- `handle_json_string`: parse, and if parsing already produced a
Response, encode it; otherwise dispatch and encode the result.  The
encoding is modelled at the JSON-value level (`to_dict`; `json.dumps`
of that dict is the wire string). -/
def JsonRpcProcessor.handle_json_string (p : JsonRpcProcessor) (fresh : String)
    (loaded : Option Json) : Json :=
  match JsonRpcProcessor.parse_request fresh loaded with
  | .response resp => resp.to_dict
  | .request req => (p.process_request req).to_dict

/-! ## Service facade: `TicketProcessingRpcService.check_escalation` -/

/-- The fields of `ticket_data` that `check_escalation` reads; `none`
models an absent key (the source applies defaults via `dict.get`).
Python float scores are modelled as rationals; the source's literal
`-0.3` is the rational `-(3/10)`. -/
structure TicketData where
  sentiment : Option String := none
  polarity : Option Rat := none
  urgency_keywords : Option (List String) := none

/-- The `reasons` sub-dict of the `check_escalation` result. -/
structure EscalationReasons where
  negative_sentiment : Bool
  urgency_keywords : Bool
  urgency_keywords_found : List String

/-- The `check_escalation` result (the `checked_at` timestamp and the
constant `service` tag, which depend on the wall clock only, are not
modelled). -/
structure EscalationResult where
  needs_escalation : Bool
  escalation_score : Rat
  reasons : EscalationReasons

/-- `TicketProcessingRpcService.check_escalation`: defaults are
`"neutral"`, `0.0`, `[]`; escalation fires when (sentiment is
`"negative"` and polarity < −0.3) or the urgency keyword list is
non-empty; the score is `abs(polarity)` for negative polarity, else 0. -/
def TicketProcessingRpcService.check_escalation (t : TicketData) :
    EscalationResult :=
  let sentiment := t.sentiment.getD "neutral"
  let polarity := t.polarity.getD 0
  let urgency_keywords := t.urgency_keywords.getD []
  { needs_escalation :=
      (sentiment == "negative" && decide (polarity < -(3/10 : Rat)))
        || decide (urgency_keywords.length > 0),
    escalation_score := if polarity < 0 then |polarity| else 0,
    reasons :=
      { negative_sentiment :=
          sentiment == "negative" && decide (polarity < -(3/10 : Rat)),
        urgency_keywords := decide (urgency_keywords.length > 0),
        urgency_keywords_found := urgency_keywords } }

/-! ## Transport adapter (`src/streaming/kafka_client.py`) -/

/-- The `KafkaClient` configuration flags the claims depend on.  The
JSON serialization path is modelled (`use_schema_registry = False`, the
demo/default configuration); the Avro path differs only in the
serializer and handles its faults the same way. -/
structure KafkaClientM where
  demo_mode : Bool
  use_jsonrpc : Bool := true

/-- `message.get('ticket_id', key)` used as `request_id`: the stored
value (Python `None` for a stored JSON `null`), else the `key` argument
(itself possibly `None`). -/
def requestIdOfMessage (message : List (String × Json)) (key : Option Json) :
    Option Json :=
  match List.lookup "ticket_id" message with
  | some .null => none
  | some v => some v
  | none =>
      match key with
      | some .null => none
      | some k => some k
      | none => none

/-- The external produce-and-flush operation on the serialized value;
`.error` models a raised transport exception (connectivity, delivery
timeout). -/
def Transport := Json → Except String Unit

/-- `KafkaClient.send_message` (live JSON path): build the JSON-RPC 2.0
envelope when `use_jsonrpc` is set (method = hint or
`kafka.<topic with dashes replaced>`), else the plain message; then
produce and flush.  The whole body sits in
`except Exception as e: logger.error(...)`, so a transport fault is
logged and swallowed — the function returns `None` either way, which is
why the result here is always `.ok`. -/
def KafkaClientM.send_message (c : KafkaClientM) (transport : Transport)
    (fresh : String) (topic : String) (message : List (String × Json))
    (key : Option Json) (method : Option String) : Except String Unit :=
  if c.demo_mode then .ok ()
  else
    let serialized : Json :=
      if c.use_jsonrpc then
        let rpc_method := method.getD
          ("kafka." ++ String.map (fun ch => if ch = '-' then '_' else ch) topic)
        (JsonRpcProcessor.create_request fresh rpc_method (some (.obj message))
          (requestIdOfMessage message key)).to_dict
      else .obj message
    match transport serialized with
    | .ok _ => .ok ()
    | .error _ => .ok ()

/-- The `_jsonrpc` metadata dict the consumer attaches to a decoded
envelope's params. -/
def rpcMetaOf (req : JsonRpcRequest) : Json :=
  .obj [("method", req.method), ("id", req.id.getD .null),
        ("version", .str req.jsonrpc)]

/-- `message_data['_kafka_metadata'] = {...}` when the payload is a
dict; non-dict payloads are passed to the callback unchanged. -/
def attachKafkaMetadata (payload : Json) (meta : Json) : Json :=
  match payload with
  | .obj kvs => .obj (dictSet kvs "_kafka_metadata" meta)
  | other => other

/-- One iteration of the `consume_messages` body for a polled message
(JSON deserialization branch): `loaded` is `json.loads` of the decoded
text (`none` when not valid JSON), `meta` the delivery metadata dict,
`fresh` the identifier `parse_request` would generate.  Returns the
payload handed to the callback, or `none` when the message is skipped.
When RPC decoding is on: a `parse_request` error Response is logged and
skipped (`continue`); a decoded Request delivers `params or {}` with
`_jsonrpc` metadata — unless that value is a truthy non-dict, in which
case the metadata assignment raises `TypeError` and the `except` clause
falls back to delivering the plain `json.loads` of the text.  A raised
decode fault is caught by the per-message `except` and the message is
skipped. -/
def processKafkaMessage (use_jsonrpc : Bool) (fresh : String) (meta : Json)
    (loaded : Option Json) : Option Json :=
  if use_jsonrpc then
    match JsonRpcProcessor.parse_request fresh loaded with
    | .request req =>
        let md : Json :=
          match req.params with
          | some v => if v.truthy then v else .obj []
          | none => .obj []
        match md with
        | .obj kvs =>
            some (attachKafkaMetadata (.obj (dictSet kvs "_jsonrpc" (rpcMetaOf req))) meta)
        | _ =>
            match loaded with
            | some j => some (attachKafkaMetadata j meta)
            | none => none
    | .response _ => none
  else
    match loaded with
    | some j => some (attachKafkaMetadata j meta)
    | none => none

/-- The `consume_messages` polling loop over a finite stream of polled
messages, each given as (generated id, delivery metadata, `json.loads`
result): the list of payloads delivered to the callback, in order. -/
def KafkaClientM.consume_messages (use_jsonrpc : Bool)
    (msgs : List (String × Json × Option Json)) : List Json :=
  msgs.filterMap (fun m => processKafkaMessage use_jsonrpc m.1 m.2.1 m.2.2)

/-! ## Flow orchestrator (`src/streaming/data_flow_manager.py`) -/

/-- `DataFlowManager.send_raw_ticket`: enrich the ticket with source,
ingestion timestamp and `flow_stage`, send it over Kafka when not in
demo mode, and return `True`; the `except` clause returns `False` when
an exception reaches this frame. -/
def DataFlowManager.send_raw_ticket (dfmDemo : Bool) (c : KafkaClientM)
    (transport : Transport) (fresh now : String) (topicRaw : String)
    (ticket_data : List (String × Json)) : Bool :=
  let enriched := pyUpdate ticket_data
    [("source", pyGetD ticket_data "source" (.str "unknown")),
     ("ingestion_timestamp", .str now),
     ("flow_stage", .str "raw_ticket")]
  let sent : Except String Unit :=
    if !dfmDemo then
      c.send_message transport fresh topicRaw enriched
        (some (pyGetD ticket_data "ticket_id" (.str "unknown")))
        (some "ticket.raw_received")
    else .ok ()
  match sent with
  | .ok _ => true
  | .error _ => false

/-- The three pipeline stages of the orchestrator. -/
inductive FlowStage where
  | raw : FlowStage
  | processed : FlowStage
  | aiResponse : FlowStage
deriving DecidableEq, Repr

/-- The stage-3 payload built by `process_complete_ticket_flow`:
`ai_response` enriched with the ticket id, the original message, and the
condensed sentiment summary taken from the processed ticket. -/
def aiResponseWithTicketId (raw_ticket processed_ticket ai_response :
    List (String × Json)) : List (String × Json) :=
  pyUpdate ai_response
    [("ticket_id", pyGetD raw_ticket "ticket_id" (.str "unknown")),
     ("original_message", pyGetD raw_ticket "message" (.str "")),
     ("sentiment_analysis", .obj
        [("sentiment", (List.lookup "sentiment" processed_ticket).getD .null),
         ("polarity", (List.lookup "polarity" processed_ticket).getD .null),
         ("priority", (List.lookup "priority" processed_ticket).getD .null),
         ("needs_escalation",
            (List.lookup "needs_escalation" processed_ticket).getD .null)])]

/-- `DataFlowManager.process_complete_ticket_flow`: three sequential
stage sends, each a collaborator returning `True`/`False` as in the
source's `send_raw_ticket` / `send_processed_ticket` /
`send_ai_response`; stop and return `False` at the first failing stage.
The second component records which stage sends were attempted, in
program order. -/
def DataFlowManager.process_complete_ticket_flow
    (sendRaw sendProcessed sendAi : List (String × Json) → Bool)
    (raw_ticket processed_ticket ai_response : List (String × Json)) :
    Bool × List FlowStage :=
  if !(sendRaw raw_ticket) then (false, [.raw])
  else if !(sendProcessed processed_ticket) then (false, [.raw, .processed])
  else if !(sendAi (aiResponseWithTicketId raw_ticket processed_ticket ai_response)) then
    (false, [.raw, .processed, .aiResponse])
  else (true, [.raw, .processed, .aiResponse])

/-! ## Derived predicates and concrete instances used by the theorems -/

/-- Whether a JSON value is a dict carrying the given key. -/
def jsonHasKey (j : Json) (k : String) : Bool :=
  match j with
  | .obj kvs => hasKey kvs k
  | _ => false

/-- The error code of a response, read off its `error` dict. -/
def JsonRpcResponse.errorCode (r : JsonRpcResponse) : Option Rat :=
  match r.error with
  | some (.obj e) =>
      match List.lookup "code" e with
      | some (.num c) => some c
      | _ => none
  | _ => none

/-- A well-formed JSON-RPC 2.0 response dict: a JSON object with
`jsonrpc` equal to `"2.0"`, exactly one of the keys `result`/`error`,
and, when present, an `error` object with a numeric `code` and a string
`message`. -/
def isWellFormedResponseDict (j : Json) : Bool :=
  match j with
  | .obj kvs =>
      (match List.lookup "jsonrpc" kvs with
       | some (.str v) => v == "2.0"
       | _ => false)
      && ((hasKey kvs "result") ^^ (hasKey kvs "error"))
      && (match List.lookup "error" kvs with
          | none => true
          | some (.obj e) =>
              (match List.lookup "code" e with
               | some (.num _) => true
               | _ => false)
              && (match List.lookup "message" e with
                  | some (.str _) => true
                  | _ => false)
          | some _ => false)
  | _ => false

/-- A `JsonRpcRequest` constructible in the source: version `"2.0"`, an
`id` generated or kept by `__post_init__` (hence present; Python `None`
is modelled by `none`, so a stored JSON `null` is not constructible),
and `params` either absent or a non-`null` value. -/
def JsonRpcRequest.valid (r : JsonRpcRequest) : Prop :=
  r.jsonrpc = "2.0"
  ∧ (∃ i, r.id = some i ∧ i ≠ .null)
  ∧ (∀ p, r.params = some p → p ≠ .null)

/-- A handler that accepts any argument shape and returns `"ok"`. -/
def exampleHandler : Handler := fun _ => .ok (.str "ok")

/-- A processor with the single method `"m"` registered. -/
def procWithM : JsonRpcProcessor := { methods := [("m", exampleHandler)] }

/-- A request for method `"m"` whose `params` is the string `"oops"` —
present, but neither an array nor an object. -/
def reqStringParams : JsonRpcRequest :=
  { method := .str "m", params := some (.str "oops"), id := some (.str "1") }

/-- A live (non-demo) Kafka client on the JSON serialization path. -/
def liveKafkaClient : KafkaClientM := { demo_mode := false }

/-- A transport whose produce/flush raises on every message. -/
def failingTransport : Transport :=
  fun _ => .error "KafkaException: message delivery failed"

/-- A concrete raw ticket. -/
def ticketT001 : List (String × Json) :=
  [("ticket_id", .str "T001"), ("message", .str "billing is broken")]

/-- A consumed message text that is valid JSON but not a valid JSON-RPC
envelope (no `jsonrpc` field). -/
def nonEnvelopeJson : Json := .obj [("bar", .num 2)]

/-- A consumed message text that is a valid JSON-RPC 2.0 envelope with
object params. -/
def goodEnvelope : Json :=
  .obj [("jsonrpc", .str "2.0"), ("method", .str "ticket.processed"),
        ("params", .obj [("a", .num 1)]), ("id", .str "T1")]

/-- The payload the consumer delivers for `goodEnvelope` under empty
delivery metadata: the params dict with `_jsonrpc` and `_kafka_metadata`
attached. -/
def goodEnvelopePayload : Json :=
  .obj [("a", .num 1),
        ("_jsonrpc", .obj [("method", .str "ticket.processed"),
                           ("id", .str "T1"), ("version", .str "2.0")]),
        ("_kafka_metadata", .obj [])]

/-- A valid request used to witness the round-trip theorem. -/
def roundtripExampleRequest : JsonRpcRequest :=
  { method := .str "sentiment.analyze",
    params := some (.obj [("message", .str "hi")]),
    id := some (.str "abc-123") }

/-- The error response `parse_request` returns for `nonEnvelopeJson`
(an object without a `jsonrpc` field). -/
def nonEnvelopeParseResponse : JsonRpcResponse :=
  JsonRpcProcessor.create_error_response JsonRpcErrorCodes.INVALID_REQUEST
    "Invalid Request - missing or invalid jsonrpc version" none none

/-- The request `parse_request` returns for `goodEnvelope`. -/
def goodEnvelopeRequest : JsonRpcRequest :=
  { method := .str "ticket.processed", params := some (.obj [("a", .num 1)]),
    id := some (.str "T1") }

/-! ## Helper lemmas -/

/-- Every response built by `create_error_response` encodes to a
well-formed response dict. -/
theorem isWF_create_error (c : Int) (msg : String) (d : Option Json)
    (id : Option Json) :
    isWellFormedResponseDict
      (JsonRpcProcessor.create_error_response c msg d id).to_dict = true := by
  cases id <;> cases d <;>
    simp [JsonRpcProcessor.create_error_response, JsonRpcResponse.to_dict,
      JsonRpcError.to_dict, isWellFormedResponseDict, hasKey, List.lookup]

/-- Every response built by `create_success_response` encodes to a
well-formed response dict. -/
theorem isWF_create_success (v : Json) (id : Option Json) :
    isWellFormedResponseDict
      (JsonRpcProcessor.create_success_response v id).to_dict = true := by
  cases id <;>
    simp [JsonRpcProcessor.create_success_response, JsonRpcResponse.to_dict,
      isWellFormedResponseDict, hasKey, List.lookup]

/-- When the middleware loop aborts, the response it aborts with is
well-formed. -/
theorem runMiddleware_wf (ms : List Middleware) (r : JsonRpcRequest) :
    ∀ resp, runMiddleware ms r = .inl resp →
      isWellFormedResponseDict resp.to_dict = true := by
  induction ms generalizing r with
  | nil => intro resp h; simp [runMiddleware] at h
  | cons m ms ih =>
      intro resp h
      rw [runMiddleware] at h
      cases hm : m r with
      | ok r2 => rw [hm] at h; exact ih r2 resp h
      | error e =>
          rw [hm] at h
          cases h
          exact isWF_create_error _ _ _ _

/-- Wrapping any handler outcome yields a well-formed response dict. -/
theorem finishCall_wf (o : CallOutcome) (id : Option Json) :
    isWellFormedResponseDict (finishCall o id).to_dict = true := by
  cases o with
  | ok v => exact isWF_create_success v id
  | typeError m => exact isWF_create_error _ _ _ _
  | raised m => exact isWF_create_error _ _ _ _

/-- Every `process_request` result encodes to a well-formed response
dict, for any registry, middleware chain and request. -/
theorem process_request_wf (p : JsonRpcProcessor) (r : JsonRpcRequest) :
    isWellFormedResponseDict (p.process_request r).to_dict = true := by
  rw [JsonRpcProcessor.process_request]
  split
  · rename_i resp heq
    exact runMiddleware_wf p.middleware r resp heq
  · rename_i req heq
    repeat' split
    all_goals first
      | exact isWF_create_error _ _ _ _
      | exact finishCall_wf _ _

/-- When `parse_request` rejects its input, the pre-built error response
is well-formed. -/
theorem parse_request_wf (fresh : String) (loaded : Option Json) :
    ∀ resp, JsonRpcProcessor.parse_request fresh loaded = .response resp →
      isWellFormedResponseDict resp.to_dict = true := by
  intro resp h
  rw [JsonRpcProcessor.parse_request.eq_def] at h
  repeat' split at h
  all_goals cases h
  all_goals exact isWF_create_error _ _ _ _

/-! ## Claim theorems -/

/-- Claim C1: for every input string (modelled by the `json.loads`
outcome `loaded`, with `none` for syntactically invalid text), every
registry/middleware configuration and every generated identifier, the
value returned by `handle_json_string` is the encoding of a well-formed
JSON-RPC response: protocol, dispatch and execution errors all become
error Response values, and the function is total — no input reaches an
unhandled fault past the processor boundary. -/
theorem handle_json_string_always_wellformed (p : JsonRpcProcessor)
    (fresh : String) (loaded : Option Json) :
    isWellFormedResponseDict (p.handle_json_string fresh loaded) = true := by
  rw [JsonRpcProcessor.handle_json_string]
  cases hpr : JsonRpcProcessor.parse_request fresh loaded with
  | response resp => exact parse_request_wf fresh loaded resp hpr
  | request req => exact process_request_wf p req

/-- Claim C2: for every triple of payloads and every outcome of the
three stage sends, `process_complete_ticket_flow` attempts the sends in
the fixed order raw, processed, AI-response; a failing stage makes it
return failure with no later stage attempted (a stage is attempted only
if all earlier stages succeeded); the result is success iff all three
sends succeed; and stages already attempted stay in the attempt trace —
nothing is rolled back on a later failure. -/
theorem process_complete_ticket_flow_prefix_spec
    (sendRaw sendProcessed sendAi : List (String × Json) → Bool)
    (raw processed ai : List (String × Json)) :
    (DataFlowManager.process_complete_ticket_flow sendRaw sendProcessed sendAi
        raw processed ai =
      (if sendRaw raw then
        (if sendProcessed processed then
          (sendAi (aiResponseWithTicketId raw processed ai),
            [FlowStage.raw, FlowStage.processed, FlowStage.aiResponse])
         else (false, [FlowStage.raw, FlowStage.processed]))
       else (false, [FlowStage.raw])))
    ∧ ((DataFlowManager.process_complete_ticket_flow sendRaw sendProcessed sendAi
        raw processed ai).1 = true ↔
        (sendRaw raw = true ∧ sendProcessed processed = true
          ∧ sendAi (aiResponseWithTicketId raw processed ai) = true)) := by
  cases hR : sendRaw raw <;> cases hP : sendProcessed processed <;>
    cases hA : sendAi (aiResponseWithTicketId raw processed ai) <;>
    simp [DataFlowManager.process_complete_ticket_flow, hR, hP, hA]

/-- Claim C3: dispatching a request whose `params` is present but
neither an array nor an object does NOT produce code −32602: the
`ValueError` raised for that shape is not caught by the `except
TypeError` clause, so the response carries code −32603 (Internal Error,
"Method execution error") with the request's id.  This theorem
evaluates the code at the failing input of the claim. -/
theorem process_request_nonstructured_params_internal_error :
    JsonRpcProcessor.process_request procWithM reqStringParams =
      JsonRpcProcessor.create_error_response (-32603)
        "Method execution error: Params must be array or object" none
        (some (.str "1"))
    ∧ (JsonRpcProcessor.process_request procWithM reqStringParams).errorCode =
        some (-32603)
    ∧ (JsonRpcProcessor.process_request procWithM reqStringParams).errorCode ≠
        some (-32602) :=
  ⟨rfl, rfl, by decide⟩

/-- Claim C4 counterexample: parsing the wire object
`{"jsonrpc": "2.0", "method": "ping"}` — valid, with a `method` field
and no `id` field — does not return a Request with an absent
identifier: `__post_init__` runs on the parse path too and fills in the
freshly generated identifier. -/
theorem parse_request_missing_id_counterexample :
    JsonRpcProcessor.parse_request "fresh-uuid"
        (some (.obj [("jsonrpc", Json.str "2.0"), ("method", Json.str "ping")])) =
      .request { method := Json.str "ping", params := none,
                 id := some (Json.str "fresh-uuid") }
    ∧ (some (Json.str "fresh-uuid") ≠ (none : Option Json)) :=
  ⟨rfl, by simp⟩

/-- Claim C4 (amended): for every wire object that is valid JSON with
`jsonrpc` `"2.0"` and a `method` field but no usable `id`, `parse_request`
returns a Request whose identifier is the freshly generated one — the
generator runs for any construction with an absent id, on the parse path
as well as the creator path. -/
theorem parse_request_missing_id_generates_fresh (fresh : String)
    (kvs : List (String × Json))
    (hv : isJsonStrEq (pyGet kvs "jsonrpc") "2.0" = true)
    (hm : hasKey kvs "method" = true)
    (hid : pyGet kvs "id" = none) :
    JsonRpcProcessor.parse_request fresh (some (.obj kvs)) =
      .request { method := dictIndex kvs "method",
                 params := pyGet kvs "params", id := some (.str fresh) } := by
  simp [JsonRpcProcessor.parse_request, hv, hm, hid, mkJsonRpcRequest]

/-- Witness for the amended C4 theorem at a concrete wire object. -/
theorem parse_request_missing_id_generates_fresh_witness :
    pyGet [("jsonrpc", Json.str "2.0"), ("method", Json.str "ping")] "id" = none
    ∧ JsonRpcProcessor.parse_request "generated-id"
        (some (.obj [("jsonrpc", Json.str "2.0"), ("method", Json.str "ping")])) =
      .request { method := Json.str "ping", params := none,
                 id := some (Json.str "generated-id") } :=
  ⟨rfl, parse_request_missing_id_generates_fresh "generated-id" _ rfl rfl rfl⟩

/-- Claim C5: for every valid Request (version `"2.0"`, identifier
present as `__post_init__` guarantees, no model-only explicit-`null`
fields), parsing its wire encoding returns the same request — method,
params (sequence, mapping or absent) and identifier are preserved. -/
theorem parse_request_to_json_roundtrip (fresh : String) (r : JsonRpcRequest)
    (h : r.valid) :
    JsonRpcProcessor.parse_request fresh (some r.to_dict) = .request r := by
  obtain ⟨h1, ⟨i, hid, hinull⟩, hparams⟩ := h
  obtain ⟨jv, m, ps, idf⟩ := r
  simp only at h1 hid hparams
  subst h1
  subst hid
  cases ps with
  | none =>
      cases i <;>
        simp_all [JsonRpcRequest.to_dict, JsonRpcProcessor.parse_request,
          pyGet, isJsonStrEq, hasKey, dictIndex, mkJsonRpcRequest, List.lookup]
  | some p =>
      have hpn : p ≠ .null := hparams p rfl
      cases i <;> cases p <;>
        simp_all [JsonRpcRequest.to_dict, JsonRpcProcessor.parse_request,
          pyGet, isJsonStrEq, hasKey, dictIndex, mkJsonRpcRequest, List.lookup]

/-- Witness for the round-trip theorem at a concrete request. -/
theorem parse_request_to_json_roundtrip_witness :
    roundtripExampleRequest.valid
    ∧ JsonRpcProcessor.parse_request "zz" (some roundtripExampleRequest.to_dict) =
        .request roundtripExampleRequest :=
  ⟨⟨rfl, ⟨.str "abc-123", rfl, by simp⟩, fun p hp => by
      simp only [roundtripExampleRequest] at hp
      cases hp
      simp⟩,
   parse_request_to_json_roundtrip "zz" roundtripExampleRequest
     ⟨rfl, ⟨.str "abc-123", rfl, by simp⟩, fun p hp => by
        simp only [roundtripExampleRequest] at hp
        cases hp
        simp⟩⟩

/-- Claim C6: a live-mode (non-demo) stage send whose transport faults
on every produce/flush still reports stage success: `send_message`'s
blanket `except Exception` clause only logs, so no failure reaches
`send_raw_ticket`'s `except` clause and the stage returns `True`.  The
first conjunct exhibits that the transport does fault on the attempted
send; the second evaluates the code at that failing input. -/
theorem send_raw_ticket_reports_success_despite_transport_fault :
    failingTransport (Json.obj []) =
      Except.error "KafkaException: message delivery failed"
    ∧ DataFlowManager.send_raw_ticket false liveKafkaClient failingTransport
        "f" "2025-06-19T00:00:00" "support-tickets" ticketT001 = true :=
  ⟨rfl, rfl⟩

/-- Claim C7: dispatch applies the middleware chain head-first (the
chain is kept in insertion order, as the `add_middleware` conjunct
shows), each middleware receiving the previous one's output; when a
middleware faults, processing stops at once — the remaining chain, the
registry lookup and the handler are never consulted — and the result is
the Internal Error (−32603) response carrying the current request's id
and the fault message. -/
theorem process_request_middleware_chain_step (p : JsonRpcProcessor)
    (m : Middleware) (ms : List Middleware) (r : JsonRpcRequest) :
    (JsonRpcProcessor.process_request { p with middleware := m :: ms } r =
      match m r with
      | .ok r2 =>
          JsonRpcProcessor.process_request { p with middleware := ms } r2
      | .error e =>
          JsonRpcProcessor.create_error_response JsonRpcErrorCodes.INTERNAL_ERROR
            ("Middleware error: " ++ e) none r.id)
    ∧ (∀ f, (JsonRpcProcessor.add_middleware p f).middleware =
        p.middleware ++ [f]) := by
  constructor
  · cases hm : m r with
    | ok r2 =>
        have h2 : runMiddleware (m :: ms) r = runMiddleware ms r2 := by
          simp only [runMiddleware, hm]
        simp only [JsonRpcProcessor.process_request, h2]
    | error e =>
        simp only [JsonRpcProcessor.process_request, runMiddleware, hm]
  · intro f; rfl

/-- Claim C8: `check_escalation` flags escalation exactly when
(sentiment is `"negative"` and polarity < −0.3) or the urgency-keyword
list is non-empty, and reports `abs(polarity)` as the score for negative
polarity and `0.0` otherwise; in particular the two concrete instances
of the claim: (`"negative"`, −0.5, `[]`) escalates with score 0.5, and
(`"positive"`, 0.4, non-empty) escalates with score 0. -/
theorem check_escalation_logic_spec :
    (∀ t : TicketData,
      ((TicketProcessingRpcService.check_escalation t).needs_escalation = true ↔
        ((t.sentiment.getD "neutral" = "negative"
            ∧ t.polarity.getD 0 < -(3/10 : Rat))
          ∨ t.urgency_keywords.getD [] ≠ []))
      ∧ (TicketProcessingRpcService.check_escalation t).escalation_score =
          (if t.polarity.getD 0 < 0 then |t.polarity.getD 0| else 0))
    ∧ ((TicketProcessingRpcService.check_escalation
          { sentiment := some "negative", polarity := some (-(1/2)),
            urgency_keywords := some [] }).needs_escalation = true
        ∧ (TicketProcessingRpcService.check_escalation
          { sentiment := some "negative", polarity := some (-(1/2)),
            urgency_keywords := some [] }).escalation_score = 1/2)
    ∧ ((TicketProcessingRpcService.check_escalation
          { sentiment := some "positive", polarity := some (2/5),
            urgency_keywords := some ["urgent"] }).needs_escalation = true
        ∧ (TicketProcessingRpcService.check_escalation
          { sentiment := some "positive", polarity := some (2/5),
            urgency_keywords := some ["urgent"] }).escalation_score = 0) := by
  refine ⟨fun t => ⟨?_, rfl⟩, ⟨?_, ?_⟩, ⟨?_, ?_⟩⟩
  · simp [TicketProcessingRpcService.check_escalation, List.length_pos]
  · norm_num [TicketProcessingRpcService.check_escalation]
  · norm_num [TicketProcessingRpcService.check_escalation]
  · norm_num [TicketProcessingRpcService.check_escalation]
  · norm_num [TicketProcessingRpcService.check_escalation]

/-- Claim C9 counterexample: a consumed message whose text is valid JSON
but not a valid RPC envelope (here `{"bar": 2}`, no `jsonrpc` field) is
NOT delivered through a plain-text fallback: `parse_request` returns an
error Response (not an exception), the consumer logs it and `continue`s,
and the callback never sees the message. -/
theorem consume_messages_skips_valid_json_non_envelope :
    processKafkaMessage true "f" (Json.obj []) (some nonEnvelopeJson) = none
    ∧ KafkaClientM.consume_messages true
        [("f", Json.obj [], some nonEnvelopeJson)] = [] :=
  ⟨rfl, rfl⟩

/-- Claim C9 (amended): in live mode on the JSON path, a message on
which RPC-envelope decoding yields an error Response (valid JSON without
a valid envelope, or invalid JSON) is logged and skipped — the plain-text
fallback fires only when envelope post-processing raises; a valid
envelope with mapping params is delivered to the callback with the
`_jsonrpc` and delivery metadata attached; and a skipped message affects
only itself — the loop is element-wise, so subsequent messages are still
delivered. -/
theorem consume_messages_decode_spec :
    (∀ (fresh : String) (meta : Json) (loaded : Option Json)
        (resp : JsonRpcResponse),
        JsonRpcProcessor.parse_request fresh loaded = .response resp →
        processKafkaMessage true fresh meta loaded = none)
    ∧ (∀ (fresh : String) (meta : Json) (loaded : Option Json)
        (req : JsonRpcRequest) (kvs : List (String × Json)),
        JsonRpcProcessor.parse_request fresh loaded = .request req →
        req.params = some (.obj kvs) →
        processKafkaMessage true fresh meta loaded =
          some (attachKafkaMetadata
            (.obj (dictSet kvs "_jsonrpc" (rpcMetaOf req))) meta))
    ∧ (∀ (u : Bool) (m : String × Json × Option Json)
        (ms : List (String × Json × Option Json)),
        KafkaClientM.consume_messages u (m :: ms) =
          (processKafkaMessage u m.1 m.2.1 m.2.2).toList
            ++ KafkaClientM.consume_messages u ms) := by
  refine ⟨?_, ?_, ?_⟩
  · intro fresh meta loaded resp h
    simp [processKafkaMessage, h]
  · intro fresh meta loaded req kvs hpr hp
    cases kvs with
    | nil => simp [processKafkaMessage, hpr, hp, Json.truthy]
    | cons a t => simp [processKafkaMessage, hpr, hp, Json.truthy]
  · intro u m ms
    cases h : processKafkaMessage u m.1 m.2.1 m.2.2 <;>
      simp [KafkaClientM.consume_messages, List.filterMap_cons, h]

/-- Witness for the amended C9 theorem: the non-envelope message is
skipped, the valid envelope is delivered, and consuming them in sequence
delivers exactly the valid one's payload. -/
theorem consume_messages_decode_spec_witness :
    processKafkaMessage true "f" (Json.obj []) (some nonEnvelopeJson) = none
    ∧ processKafkaMessage true "g" (Json.obj []) (some goodEnvelope) =
        some goodEnvelopePayload
    ∧ KafkaClientM.consume_messages true
        [("f", Json.obj [], some nonEnvelopeJson),
         ("g", Json.obj [], some goodEnvelope)] = [goodEnvelopePayload] :=
  ⟨consume_messages_decode_spec.1 "f" (Json.obj []) (some nonEnvelopeJson)
     nonEnvelopeParseResponse rfl,
   consume_messages_decode_spec.2.1 "g" (Json.obj []) (some goodEnvelope)
     goodEnvelopeRequest [("a", Json.num 1)] rfl rfl,
   by rw [consume_messages_decode_spec.2.2, consume_messages_decode_spec.2.2]
      rfl⟩

/-- Claim C10 counterexample: the default Response — `result` and
`error` both unset — still encodes a `result` key (with value `null`),
so the unset `result` is not omitted and "the result field appears only
when it is the populated one" fails at this value. -/
theorem response_to_dict_unset_result_counterexample :
    JsonRpcResponse.to_dict {} =
      Json.obj [("jsonrpc", .str "2.0"), ("result", .null)]
    ∧ ({} : JsonRpcResponse).result = none
    ∧ ({} : JsonRpcResponse).error = none :=
  ⟨rfl, rfl, rfl⟩

/-- Claim C10 (amended): every Response encodes exactly one of the keys
`result`/`error`, never both; the `error` key appears iff the `error`
field is set, and the `result` key appears iff `error` is unset — so a
response with neither field populated still carries `result: null`. -/
theorem response_to_dict_exactly_one_key (r : JsonRpcResponse) :
    (jsonHasKey r.to_dict "error" = true ↔ r.error ≠ none)
    ∧ (jsonHasKey r.to_dict "result" = true ↔ r.error = none)
    ∧ ¬(jsonHasKey r.to_dict "error" = true
        ∧ jsonHasKey r.to_dict "result" = true) := by
  obtain ⟨jv, id, res, err⟩ := r
  cases id <;> cases err <;>
    simp [JsonRpcResponse.to_dict, jsonHasKey, hasKey]
